import Mathlib

/-!
Verification development for the game-platform-core repository.

The repository's orchestration core consists of a `BetService` (bet ledger:
placement, settlement, status updates over a persistent `Bet` table) and a
`WalletService` (external wallet gateway: getBalance / placeBet / settleBet /
refundBet over HTTP, with audit records and retry jobs on failure).

This file is a shallow embedding of that code:
* the `Bet` TypeORM entity becomes a Lean structure (the DB-generated columns
  `id`, `createdAt`, `updatedAt` are elided: none of the modelled operations
  reads or writes them, they are assigned by the storage engine);
* the repository (TypeORM `Repository<Bet>`) becomes a `List Bet`, with
  `findOne` as `List.find?` and `save` as append (new entity) or first-match
  replacement (mutated entity);
* JavaScript `Date` values become `Nat` timestamps, passed explicitly as `now`;
* thrown exceptions become `Except` errors;
* the JS truthiness tests that the source relies on (`if (gameCode)`,
  `params.currency || 'USD'`, `bet.winAmount && ...`) are modelled explicitly
  (`""` is the only falsy string that occurs).

The bet-amount fields are exact decimal strings in the source; the one numeric
use, `Number(bet.winAmount) > 0`, is modelled by `jsNumber`, a parser for the
sign/digits/fraction decimal forms these fields take (JS `Number` on such a
string gives exactly this rational; a non-numeric string gives `NaN`, modelled
as `none`, which fails the `> 0` comparison).
-/

/-- Bet lifecycle states, from `src/enums/bet-status.enum.ts`. -/
inductive BetStatus where
  | placed
  | pendingSettlement
  | won
  | lost
  | cancelled
  | refunded
  | settlementFailed
deriving DecidableEq, Repr

/-- Seed/hash provenance blob stored on a bet (`fairnessData` column). -/
structure FairnessData where
  decimal : Option String := none
  clientSeed : Option String := none
  serverSeed : Option String := none
  combinedHash : Option String := none
  hashedServerSeed : Option String := none
deriving DecidableEq, Repr

/-- The `Bet` entity from `src/entities/bet.entity.ts`.  The free-form JSON
column `gameMetadata` is modelled as an association list; the DB-generated
columns `id`, `createdAt`, `updatedAt` are elided (see file header). -/
structure Bet where
  externalPlatformTxId : String
  userId : String
  roundId : String
  gameMetadata : Option (List (String × String)) := none
  betAmount : String
  winAmount : Option String := none
  currency : String
  status : BetStatus
  settlementRefTxId : Option String := none
  isPremium : Option Bool := none
  betPlacedAt : Option Nat := none
  settledAt : Option Nat := none
  gameCode : String
  gameInfo : Option String := none
  balanceAfterBet : Option String := none
  balanceAfterSettlement : Option String := none
  createdBy : Option String := none
  updatedBy : Option String := none
  operatorId : String
  finalCoeff : Option String := none
  withdrawCoeff : Option String := none
  fairnessData : Option FairnessData := none
deriving DecidableEq, Repr

/-- Domain errors thrown by `BetService` (`ConflictException`,
`NotFoundException`), carrying the source's message constants. -/
inductive BetErr where
  | conflict (message : String)
  | notFound (message : String)
deriving DecidableEq, Repr

/-- `CreateBetParams` from `bet.service.ts`. -/
structure CreateBetParams where
  externalPlatformTxId : String
  userId : String
  roundId : String
  betAmount : String
  currency : String
  gameCode : String
  createdBy : String
  operatorId : String
  gameMetadata : Option (List (String × String)) := none
  winAmount : Option String := none
  status : Option BetStatus := none
  settlementRefTxId : Option String := none
  isPremium : Option Bool := none
  betPlacedAt : Option Nat := none
  settledAt : Option Nat := none
  gameInfo : Option String := none
  balanceAfterBet : Option String := none
  balanceAfterSettlement : Option String := none
  updatedBy : Option String := none
  finalCoeff : Option String := none
  withdrawCoeff : Option String := none
  fairnessData : Option FairnessData := none
deriving Repr

/-- `SettlementParams` from the primary `bet.service.ts` copy: every optional
field distinguishes "absent" (`none`) from "explicitly provided". -/
structure SettlementParams where
  externalPlatformTxId : String
  winAmount : String
  updatedBy : String
  gameMetadata : Option (List (String × String)) := none
  settlementRefTxId : Option String := none
  settledAt : Option Nat := none
  balanceAfterSettlement : Option String := none
  gameInfo : Option String := none
  finalCoeff : Option String := none
  withdrawCoeff : Option String := none
  fairnessData : Option FairnessData := none
  status : Option BetStatus := none
  userId : Option String := none
  roundId : Option String := none
  betAmount : Option String := none
  currency : Option String := none
  gameCode : Option String := none
  isPremium : Option Bool := none
  betPlacedAt : Option Nat := none
  balanceAfterBet : Option String := none
  operatorId : Option String := none
deriving Repr

/-- `UpdateBetStatusParams` from `bet.service.ts`. -/
structure UpdateBetStatusParams where
  externalPlatformTxId : String
  status : BetStatus
  updatedBy : String
deriving Repr

/-- `UpdateBetParams` from `bet.service.ts`. -/
structure UpdateBetParams where
  externalPlatformTxId : String
  updatedBy : String
  userId : Option String := none
  roundId : Option String := none
  gameMetadata : Option (List (String × String)) := none
  betAmount : Option String := none
  winAmount : Option String := none
  currency : Option String := none
  status : Option BetStatus := none
  settlementRefTxId : Option String := none
  isPremium : Option Bool := none
  betPlacedAt : Option Nat := none
  settledAt : Option Nat := none
  gameCode : Option String := none
  gameInfo : Option String := none
  balanceAfterBet : Option String := none
  balanceAfterSettlement : Option String := none
  operatorId : Option String := none
  finalCoeff : Option String := none
  withdrawCoeff : Option String := none
  fairnessData : Option FairnessData := none
deriving Repr

/-- `SettlementParams` as declared in the second `BetService` copy present in
the repository (it has a `settleType` field, no `status` override and none of
the first copy's extra identity-field overrides). -/
structure SettlementParamsV2 where
  externalPlatformTxId : String
  winAmount : String
  updatedBy : String
  settleType : Option String := none
  settlementRefTxId : Option String := none
  settledAt : Option Nat := none
  balanceAfterSettlement : Option String := none
  gameInfo : Option String := none
  finalCoeff : Option String := none
  withdrawCoeff : Option String := none
  fairnessData : Option FairnessData := none
  gameMetadata : Option (List (String × String)) := none
deriving Repr

/-- Numeric value of a list of decimal digit characters. -/
def decDigitsVal (cs : List Char) : Nat :=
  cs.foldl (fun a c => a * 10 + (c.toNat - 48)) 0

/-- JS `Number(s)` on the decimal-string forms the bet ledger stores
(optional sign, digits, optional fraction): `none` models `NaN`.
`Number("") = 0` in JS, hence the empty-string case. -/
def jsNumber (s : String) : Option Rat :=
  match s.data with
  | [] => some 0
  | c :: cs =>
    let sgn : Int := if c = '-' then -1 else 1
    let body := if c = '-' ∨ c = '+' then cs else c :: cs
    let intPart := body.takeWhile Char.isDigit
    let rest := body.dropWhile Char.isDigit
    match rest with
    | [] =>
      if intPart.isEmpty then none
      else some (Rat.divInt (sgn * (decDigitsVal intPart : Int)) 1)
    | '.' :: fracCs =>
      let fracPart := fracCs.takeWhile Char.isDigit
      let rest₂ := fracCs.dropWhile Char.isDigit
      if rest₂.isEmpty && (!intPart.isEmpty || !fracPart.isEmpty) then
        some (Rat.divInt
          (sgn * ((decDigitsVal intPart * 10 ^ fracPart.length + decDigitsVal fracPart : Nat) : Int))
          ((10 ^ fracPart.length : Nat) : Int))
      else none
    | _ => none

/-- `Number(s) > 0` in JS (`NaN > 0` is false). -/
def jsNumberPos (s : String) : Bool :=
  match jsNumber s with
  | some q => decide (0 < q)
  | none => false

/-- The settlement status test `bet.winAmount && Number(bet.winAmount) > 0`:
the field must be present, truthy (non-empty) and numerically positive. -/
def winTruthyPositive (w : Option String) : Bool :=
  match w with
  | none => false
  | some s => s != "" && jsNumberPos s

/-- The `if (params.x !== undefined) bet.x = params.x` partial-patch step for
an `Option`-typed column. -/
def applyProvided {α : Type} (provided old : Option α) : Option α :=
  match provided with
  | some v => some v
  | none => old

/-- The status-resolution step of `recordSettlement`: an explicitly supplied
`status` is used as-is, otherwise `Won` when the (just-assigned) `winAmount`
is truthy and numerically positive, else `Lost`. -/
def resolveSettleStatus (explicit : Option BetStatus) (winAmount : String) : BetStatus :=
  match explicit with
  | some st => st
  | none => if winTruthyPositive (some winAmount) then .won else .lost

namespace BetService

/-- `whereByExternalTx` from `bet.service.ts`: the `gameCode` filter is added
only when the argument is present and truthy (JS `if (gameCode)`, so an empty
string adds no filter). -/
def whereByExternalTx (externalPlatformTxId : String) (gameCode : Option String) :
    Bet → Bool :=
  fun b =>
    b.externalPlatformTxId == externalPlatformTxId &&
      match gameCode with
      | none => true
      | some g => g == "" || b.gameCode == g

/-- `repo.save` on an entity that was fetched and mutated: replace the first
row the lookup predicate matched. -/
def replaceFirst (store : List Bet) (p : Bet → Bool) (nb : Bet) : List Bet :=
  match store with
  | [] => []
  | b :: rest => if p b then nb :: rest else b :: replaceFirst rest p nb

/-- The optional `GameValidationService.validateGame` capability
(`NotFoundException` when the game is unknown/inactive). -/
def GameValidator : Type := Option (String → Except BetErr Unit)

/-- `BetService.createPlacement`: optional game validation, duplicate lookup by
`(externalPlatformTxId, gameCode)`, `Conflict` on a hit, otherwise insert with
`status` defaulting to `Placed` and `updatedBy` defaulting to `createdBy`. -/
def createPlacement (gameValidationService : GameValidator) (store : List Bet)
    (p : CreateBetParams) : Except BetErr (List Bet × Bet) :=
  match (match gameValidationService with
         | some validateGame => validateGame p.gameCode
         | none => .ok ()) with
  | .error e => .error e
  | .ok _ =>
  match store.find? (whereByExternalTx p.externalPlatformTxId (some p.gameCode)) with
  | some _ => .error (.conflict "Bet already exists (idempotent placement)")
  | none =>
    let entity : Bet :=
      { externalPlatformTxId := p.externalPlatformTxId
        userId := p.userId
        roundId := p.roundId
        gameMetadata := p.gameMetadata
        betAmount := p.betAmount
        currency := p.currency
        gameCode := p.gameCode
        operatorId := p.operatorId
        createdBy := some p.createdBy
        updatedBy := some (p.updatedBy.getD p.createdBy)
        winAmount := p.winAmount
        status := p.status.getD .placed
        settlementRefTxId := p.settlementRefTxId
        isPremium := p.isPremium
        betPlacedAt := p.betPlacedAt
        settledAt := p.settledAt
        gameInfo := p.gameInfo
        balanceAfterBet := p.balanceAfterBet
        balanceAfterSettlement := p.balanceAfterSettlement
        finalCoeff := p.finalCoeff
        withdrawCoeff := p.withdrawCoeff
        fairnessData := p.fairnessData }
    .ok (store ++ [entity], entity)

/-- `BetService.recordSettlement` (primary copy): lookup by tx id alone,
`NotFound` if missing, terminal (`Won`/`Lost`) short-circuit returning the row
unchanged, otherwise a partial patch of every explicitly-provided field with
`settledAt` defaulting to now and the terminal status derived from `winAmount`
unless explicitly overridden. -/
def recordSettlement (store : List Bet) (p : SettlementParams) (now : Nat) :
    Except BetErr (List Bet × Bet) :=
  match store.find? (whereByExternalTx p.externalPlatformTxId none) with
  | none => throw (.notFound "Bet not found for settlement")
  | some bet =>
    if bet.status = .won ∨ bet.status = .lost then
      .ok (store, bet)
    else
      let nb : Bet :=
        { bet with
          winAmount := some p.winAmount
          updatedBy := some p.updatedBy
          gameMetadata := applyProvided p.gameMetadata bet.gameMetadata
          settlementRefTxId := applyProvided p.settlementRefTxId bet.settlementRefTxId
          settledAt := some (p.settledAt.getD now)
          balanceAfterSettlement :=
            applyProvided p.balanceAfterSettlement bet.balanceAfterSettlement
          gameInfo := applyProvided p.gameInfo bet.gameInfo
          finalCoeff := applyProvided p.finalCoeff bet.finalCoeff
          withdrawCoeff := applyProvided p.withdrawCoeff bet.withdrawCoeff
          fairnessData := applyProvided p.fairnessData bet.fairnessData
          userId := p.userId.getD bet.userId
          roundId := p.roundId.getD bet.roundId
          betAmount := p.betAmount.getD bet.betAmount
          currency := p.currency.getD bet.currency
          gameCode := p.gameCode.getD bet.gameCode
          isPremium := applyProvided p.isPremium bet.isPremium
          betPlacedAt := applyProvided p.betPlacedAt bet.betPlacedAt
          balanceAfterBet := applyProvided p.balanceAfterBet bet.balanceAfterBet
          operatorId := p.operatorId.getD bet.operatorId
          status := resolveSettleStatus p.status p.winAmount }
      .ok (replaceFirst store (whereByExternalTx p.externalPlatformTxId none) nb, nb)

/-- `BetService.recordSettlement` as written in the repository's second
`BetService` copy: same lookup and terminal short-circuit, but all optional
settlement fields except `gameMetadata` are assigned unconditionally from the
parameters (an omitted field overwrites the column with `undefined`), and the
terminal status is always derived from `winAmount` (no override). -/
def recordSettlementV2 (store : List Bet) (p : SettlementParamsV2) (now : Nat) :
    Except BetErr (List Bet × Bet) :=
  match store.find? (whereByExternalTx p.externalPlatformTxId none) with
  | none => throw (.notFound "Bet not found for settlement")
  | some bet =>
    if bet.status = .won ∨ bet.status = .lost then
      .ok (store, bet)
    else
      let nb : Bet :=
        { bet with
          winAmount := some p.winAmount
          settlementRefTxId := p.settlementRefTxId
          settledAt := some (p.settledAt.getD now)
          balanceAfterSettlement := p.balanceAfterSettlement
          gameInfo := p.gameInfo
          finalCoeff := p.finalCoeff
          withdrawCoeff := p.withdrawCoeff
          fairnessData := p.fairnessData
          gameMetadata := applyProvided p.gameMetadata bet.gameMetadata
          status := resolveSettleStatus none p.winAmount
          updatedBy := some p.updatedBy }
      .ok (replaceFirst store (whereByExternalTx p.externalPlatformTxId none) nb, nb)

/-- `BetService.updateStatus`: lookup by tx id, `NotFound` if missing, then set
`status` and `updatedBy` unconditionally. -/
def updateStatus (store : List Bet) (p : UpdateBetStatusParams) :
    Except BetErr (List Bet × Bet) :=
  match store.find? (whereByExternalTx p.externalPlatformTxId none) with
  | none => throw (.notFound "Bet not found")
  | some bet =>
    let nb : Bet := { bet with status := p.status, updatedBy := some p.updatedBy }
    .ok (replaceFirst store (whereByExternalTx p.externalPlatformTxId none) nb, nb)

/-- `BetService.markPendingSettlement`: delegates to `updateStatus`. -/
def markPendingSettlement (store : List Bet) (externalPlatformTxId updatedBy : String) :
    Except BetErr (List Bet × Bet) :=
  updateStatus store
    { externalPlatformTxId := externalPlatformTxId
      status := .pendingSettlement
      updatedBy := updatedBy }

/-- `BetService.markSettlementFailed`: delegates to `updateStatus`. -/
def markSettlementFailed (store : List Bet) (externalPlatformTxId updatedBy : String) :
    Except BetErr (List Bet × Bet) :=
  updateStatus store
    { externalPlatformTxId := externalPlatformTxId
      status := .settlementFailed
      updatedBy := updatedBy }

/-- `BetService.updateBet`: lookup by tx id, `NotFound` if missing, then a
partial patch that applies every explicitly-provided field and always stamps
`updatedBy`. -/
def updateBet (store : List Bet) (p : UpdateBetParams) :
    Except BetErr (List Bet × Bet) :=
  match store.find? (whereByExternalTx p.externalPlatformTxId none) with
  | none => throw (.notFound "Bet not found")
  | some bet =>
    let nb : Bet :=
      { bet with
        updatedBy := some p.updatedBy
        userId := p.userId.getD bet.userId
        roundId := p.roundId.getD bet.roundId
        gameMetadata := applyProvided p.gameMetadata bet.gameMetadata
        betAmount := p.betAmount.getD bet.betAmount
        winAmount := applyProvided p.winAmount bet.winAmount
        currency := p.currency.getD bet.currency
        status := p.status.getD bet.status
        settlementRefTxId := applyProvided p.settlementRefTxId bet.settlementRefTxId
        isPremium := applyProvided p.isPremium bet.isPremium
        betPlacedAt := applyProvided p.betPlacedAt bet.betPlacedAt
        settledAt := applyProvided p.settledAt bet.settledAt
        gameCode := p.gameCode.getD bet.gameCode
        gameInfo := applyProvided p.gameInfo bet.gameInfo
        balanceAfterBet := applyProvided p.balanceAfterBet bet.balanceAfterBet
        balanceAfterSettlement :=
          applyProvided p.balanceAfterSettlement bet.balanceAfterSettlement
        operatorId := p.operatorId.getD bet.operatorId
        finalCoeff := applyProvided p.finalCoeff bet.finalCoeff
        withdrawCoeff := applyProvided p.withdrawCoeff bet.withdrawCoeff
        fairnessData := applyProvided p.fairnessData bet.fairnessData }
    .ok (replaceFirst store (whereByExternalTx p.externalPlatformTxId none) nb, nb)

/-- A configured validator accepts the game code (or none is configured):
hypothesis under which `createPlacement` reaches the duplicate lookup. -/
def validatorOk (gameValidationService : GameValidator) (gameCode : String) : Prop :=
  match gameValidationService with
  | none => True
  | some validateGame => validateGame gameCode = .ok ()

end BetService

/-!
Wallet gateway model, from `src/services/wallet/wallet.service.ts`.

The collaborators whose implementation files are not part of the extracted
sources are modelled from the spec.  `Modelled from the spec:` the
`WalletAuditService` (AuditLog) and `WalletRetryService` (RetryQueue)
collaborators append exactly one row per call and return it (spec section 6:
`AuditLog.append(record) -> recordId`, `RetryQueue.enqueue(job) -> jobId`,
both non-throwing towards the gateway); the `WalletApiAction`,
`WalletAuditStatus` and `WalletErrorType` enums carry the member names used at
every call site of `wallet.service.ts` and listed in spec sections 3 and 7.

A wallet call is modelled as a pure function of the call parameters and a
`WalletEnv` capturing the external world: the agent directory, the optional
game-payload adapter, the outcome of the single HTTP POST the call performs,
and whether the audit-log write succeeds (`auditLogOk`; the retry-job enqueue
is chained behind the audit write with `.then`, so a failed audit write also
skips the retry job).  The output `CallOutcome` carries the value returned or
the exception thrown, the wire message built, and the audit/retry rows
produced; audit rows are numbered 0, 1, ... in creation order within the call
and a retry job references its audit row through `walletAuditId`.

A thrown value is a JS error object (`JsError`).  NestJS `HttpException`s
(thrown by the service itself for agent rejection, malformed responses and
unknown agents) carry their body in a runtime `response` property — TypeScript
`private` does not erase the field — so when such an exception is re-caught by
the surrounding catch block, the `if (err.response)` test classifies it as
`HTTP_ERROR`, exactly as it classifies an axios error.  The model reproduces
this: `internalServerErrorException` and `notFoundException` build errors with
`response = some ...` (whose axios-style `status`/`data` sub-fields are absent).
-/

/-- `WalletApiAction` enum (file absent from the extracted sources; member
names are those used at the `wallet.service.ts` call sites / spec section 3). -/
inductive WalletApiAction where
  | GET_BALANCE
  | PLACE_BET
  | SETTLE_BET
  | REFUND_BET
deriving DecidableEq, Repr

/-- `WalletAuditStatus` enum (spec section 3: `Success|Failure`). -/
inductive WalletAuditStatus where
  | SUCCESS
  | FAILURE
deriving DecidableEq, Repr

/-- `WalletErrorType` enum (spec section 7 taxonomy; member names from the
`wallet.service.ts` call sites). -/
inductive WalletErrorType where
  | AGENT_REJECTED
  | NETWORK_ERROR
  | TIMEOUT_ERROR
  | HTTP_ERROR
  | UNKNOWN_ERROR
deriving DecidableEq, Repr

/-- The fields of the `Agents` entity that `resolveAgent` returns. -/
structure Agent where
  agentId : String
  callbackURL : String
  cert : String
deriving DecidableEq, Repr

/-- Parsed body of a wallet HTTP response.  `status = none` models a body
whose `status` field is missing or not a string. -/
structure AgentData where
  status : Option String := none
  balance : Option Rat := none
  balanceTs : Option String := none
  userId : Option String := none
deriving DecidableEq, Repr

/-- The axios-style `response` property of a thrown error: for a transport
`HttpError` it carries the HTTP status and body; for a re-caught NestJS
exception the property holds the exception body, which has neither. -/
structure ErrResponse where
  status : Option Nat := none
  data : Option AgentData := none
deriving DecidableEq, Repr

/-- A thrown JS error as observed by the catch blocks (`response`, `code`,
`name`, `message` are the properties the service inspects). -/
structure JsError where
  response : Option ErrResponse := none
  code : Option String := none
  name : String := "Error"
  message : String := ""
deriving DecidableEq, Repr

/-- A resolved HTTP POST: body (`data`, absent when not an object) and HTTP
status code. -/
structure HttpResp where
  data : Option AgentData := none
  status : Nat := 200
deriving DecidableEq, Repr

/-- `WalletResponse` from `wallet.service.ts` (the `raw` echo is elided). -/
structure WalletResponse where
  balance : Rat
  balanceTs : Option String
  status : String
  userId : Option String
deriving DecidableEq, Repr

/-- `WalletApiAdapter.getGamePayloads` result (`gameCode` plus the optional
descriptive fields; `none` models an absent key, so spreads do not override). -/
structure GamePayloads where
  gameCode : String
  gameName : Option String := none
  platform : Option String := none
  gameType : Option String := none
  settleType : Option String := none
  currency : Option String := none
deriving DecidableEq, Repr

/-- One entry of an outbound `txns` array (the fields a verified property can
inspect; constant wire fields such as `betType: null` and the ISO timestamps
are elided). -/
structure WireTxn where
  platformTxId : String
  userId : String
  currency : Option String := none
  gameCode : Option String := none
  betAmount : Option Rat := none
  winAmount : Option Rat := none
  roundId : Option String := none
  refundPlatformTxId : Option String := none
deriving DecidableEq, Repr

/-- An outbound wallet wire message `{action, ...}`. -/
structure MessageObj where
  action : String
  userId : Option String := none
  txns : List WireTxn := []
deriving DecidableEq, Repr

/-- An `AuditRecord` row (payload snapshots and timing fields elided; `id` is
the creation index within the call). -/
structure AuditRecord where
  id : Nat
  requestId : String
  agentId : String
  userId : String
  apiAction : WalletApiAction
  status : WalletAuditStatus
  failureType : Option WalletErrorType := none
  errorMessage : Option String := none
  httpStatus : Option Nat := none
  platformTxId : Option String := none
  roundId : Option String := none
  betAmount : Option Rat := none
  winAmount : Option Rat := none
  currency : Option String := none
  callbackUrl : Option String := none
deriving DecidableEq, Repr

/-- A `RetryJob` row (`request` is the serialized outbound message snapshot;
`walletAuditId` back-references the audit row logged just before). -/
structure RetryJob where
  platformTxId : String
  apiAction : WalletApiAction
  agentId : String
  userId : String
  request : MessageObj
  callbackUrl : String
  roundId : Option String := none
  betAmount : Option Rat := none
  winAmount : Option Rat := none
  currency : Option String := none
  gamePayloads : GamePayloads
  walletAuditId : Option Nat := none
  errorMessage : Option String := none
deriving DecidableEq, Repr

/-- `PlaceBetParams` from `wallet.service.ts`. -/
structure PlaceBetParams where
  agentId : String
  userId : String
  amount : Rat
  roundId : String
  platformTxId : String
  currency : Option String := none
  gameCode : String
deriving DecidableEq, Repr

/-- `SettleBetParams` from `wallet.service.ts` (`gameSession` elided: it only
feeds the elided `gameInfo` wire field). -/
structure SettleBetParams where
  agentId : String
  platformTxId : String
  userId : String
  winAmount : Rat
  roundId : String
  betAmount : Rat
  gameCode : String
deriving DecidableEq, Repr

/-- `RefundTransaction` from `wallet.service.ts`. -/
structure RefundTransaction where
  platformTxId : String
  refundPlatformTxId : String
  betAmount : Rat
  winAmount : Rat
  turnover : Option Rat := none
  betTime : String := ""
  updateTime : String := ""
  roundId : String
  gameCode : String
  gameInfo : Option String := none
deriving DecidableEq, Repr

/-- `RefundBetParams` from `wallet.service.ts`. -/
structure RefundBetParams where
  agentId : String
  userId : String
  refundTransactions : List RefundTransaction
deriving DecidableEq, Repr

/-- The external world of one wallet call (see the section header). -/
structure WalletEnv where
  agents : String → Option Agent
  walletApiAdapter : Option (String → Except JsError GamePayloads)
  httpPost : Except JsError HttpResp
  requestId : String
  auditLogOk : Bool

/-- Everything one wallet call produces: the surfaced result, the wire message
built (if reached), and the audit/retry rows written. -/
structure CallOutcome where
  result : Except JsError WalletResponse
  request : Option MessageObj := none
  audits : List AuditRecord := []
  retryJobs : List RetryJob := []

/-- JS `s || d` on strings (empty string is falsy). -/
def jsOrStr (s d : String) : String := if s = "" then d else s

/-- JS `o || d` where `o` may also be undefined. -/
def jsOrOptStr (o : Option String) (d : String) : String :=
  match o with
  | some s => jsOrStr s d
  | none => d

namespace WalletService

/-- The error-classification sequence each catch block runs: `err.response`
first (HTTP_ERROR), then connection codes (NETWORK_ERROR), then timeouts
(TIMEOUT_ERROR), else UNKNOWN_ERROR. -/
def classifyError (err : JsError) : WalletErrorType :=
  if err.response.isSome then .HTTP_ERROR
  else if err.code = some "ECONNREFUSED" ∨ err.code = some "ENOTFOUND" then .NETWORK_ERROR
  else if err.code = some "ETIMEDOUT" ∨ err.name = "TimeoutError" then .TIMEOUT_ERROR
  else .UNKNOWN_ERROR

/-- The `httpStatus` a catch block records: `err.response.status`. -/
def catchHttpStatus (err : JsError) : Option Nat :=
  err.response.bind ErrResponse.status

/-- A NestJS `InternalServerErrorException` as a runtime error object: the
exception body sits in the (truthy) `response` property, the `message` comes
from the body. -/
def internalServerErrorException (message : String) : JsError :=
  { response := some {}
    code := none
    name := "InternalServerErrorException"
    message := message }

/-- A NestJS `NotFoundException` as a runtime error object (the source message
quotes the agent id; the quotes are elided here). -/
def notFoundException (message : String) : JsError :=
  { response := some {}
    code := none
    name := "NotFoundException"
    message := message }

/-- `WalletService.mapAgentResponse`: a body that is not an object or whose
`status` is not a string is a protocol violation. -/
def mapAgentResponse (data : Option AgentData) : Except JsError WalletResponse :=
  match data with
  | none => .error (internalServerErrorException "Malformed agent response")
  | some d =>
    match d.status with
    | none => .error (internalServerErrorException "Malformed agent response")
    | some st =>
      .ok { balance := d.balance.getD 0
            balanceTs := d.balanceTs
            status := st
            userId := d.userId }

/-- The game-payload enrichment: adapter absent or throwing falls back to the
minimal `{gameCode}` payload. -/
def fetchPayloads (env : WalletEnv) (gameCode : String) : GamePayloads :=
  match env.walletApiAdapter with
  | none => { gameCode := gameCode }
  | some getGamePayloads =>
    match getGamePayloads gameCode with
    | .ok gp => gp
    | .error _ => { gameCode := gameCode }

/-- One audit-log write: a row is stored only when the write succeeds. -/
def auditIf (ok : Bool) (a : AuditRecord) : List AuditRecord :=
  if ok then [a] else []

/-- One retry-job enqueue, chained behind its audit write: skipped when the
audit write failed. -/
def retryIf (ok : Bool) (r : RetryJob) : List RetryJob :=
  if ok then [r] else []

/-- `WalletService.getBalance`.  The agent-rejection branch logs an
`AGENT_REJECTED` failure audit and throws; the thrown exception is caught by
the function's own catch block, which logs a second failure audit classified
by `classifyError` (`HTTP_ERROR`, since the exception has a truthy
`response`).  No retry job is ever created. -/
def getBalance (env : WalletEnv) (agentId userId : String) : CallOutcome :=
  match env.agents agentId with
  | none => { result := .error (notFoundException ("Agent " ++ agentId ++ " not found")) }
  | some agent =>
    let url := agent.callbackURL
    let msg : MessageObj := { action := "getBalance", userId := some userId }
    let base : AuditRecord :=
      { id := 0, requestId := env.requestId, agentId := agentId, userId := userId
        apiAction := .GET_BALANCE, status := .FAILURE, callbackUrl := some url }
    match env.httpPost with
    | .error err =>
      { result := .error err
        request := some msg
        audits := auditIf env.auditLogOk
          { base with
            failureType := some (classifyError err)
            errorMessage := some (jsOrStr err.message "Unknown error")
            httpStatus := catchHttpStatus err } }
    | .ok resp =>
      match mapAgentResponse resp.data with
      | .error mErr =>
        { result := .error mErr
          request := some msg
          audits := auditIf env.auditLogOk
            { base with
              failureType := some (classifyError mErr)
              errorMessage := some (jsOrStr mErr.message "Unknown error")
              httpStatus := catchHttpStatus mErr } }
      | .ok mapped =>
        if mapped.status ≠ "0000" then
          let emsg := "Agent rejected getBalance with status: " ++ mapped.status
          let rejErr := internalServerErrorException emsg
          { result := .error rejErr
            request := some msg
            audits :=
              auditIf env.auditLogOk
                { base with
                  failureType := some .AGENT_REJECTED
                  errorMessage := some emsg
                  httpStatus := some resp.status } ++
              auditIf env.auditLogOk
                { base with
                  id := 1
                  failureType := some (classifyError rejErr)
                  errorMessage := some (jsOrStr rejErr.message "Unknown error")
                  httpStatus := catchHttpStatus rejErr } }
        else
          { result := .ok mapped
            request := some msg
            audits := auditIf env.auditLogOk
              { base with status := .SUCCESS, httpStatus := some resp.status } }

/-- `WalletService.placeBet`.  `resolveAgent` runs inside the try block, so an
unknown agent is audited by the catch (classified `HTTP_ERROR`: the
`NotFoundException` has a truthy `response`).  An agent rejection logs an
`AGENT_REJECTED` failure audit, throws, and is re-caught and re-audited like
in `getBalance`.  No retry job is ever created for placement. -/
def placeBet (env : WalletEnv) (p : PlaceBetParams) : CallOutcome :=
  let currency0 := jsOrOptStr p.currency "USD"
  let base : AuditRecord :=
    { id := 0, requestId := env.requestId, agentId := p.agentId, userId := p.userId
      apiAction := .PLACE_BET, status := .FAILURE
      platformTxId := some p.platformTxId, roundId := some p.roundId
      betAmount := some p.amount, currency := some currency0 }
  match env.agents p.agentId with
  | none =>
    let err := notFoundException ("Agent " ++ p.agentId ++ " not found")
    { result := .error err
      audits := auditIf env.auditLogOk
        { base with
          failureType := some (classifyError err)
          errorMessage := some (jsOrStr err.message "Unknown error")
          httpStatus := catchHttpStatus err } }
  | some agent =>
    let url := agent.callbackURL
    let gp := fetchPayloads env p.gameCode
    let txn : WireTxn :=
      { platformTxId := p.platformTxId
        userId := p.userId
        currency := some (jsOrOptStr gp.currency currency0)
        gameCode := some gp.gameCode
        betAmount := some p.amount
        roundId := some p.roundId }
    let msg : MessageObj := { action := "bet", txns := [txn] }
    match env.httpPost with
    | .error err =>
      { result := .error err
        request := some msg
        audits := auditIf env.auditLogOk
          { base with
            failureType := some (classifyError err)
            errorMessage := some (jsOrStr err.message "Unknown error")
            httpStatus := catchHttpStatus err
            callbackUrl := some url } }
    | .ok resp =>
      match mapAgentResponse resp.data with
      | .error mErr =>
        { result := .error mErr
          request := some msg
          audits := auditIf env.auditLogOk
            { base with
              failureType := some (classifyError mErr)
              errorMessage := some (jsOrStr mErr.message "Unknown error")
              httpStatus := catchHttpStatus mErr
              callbackUrl := some url } }
      | .ok mapped =>
        if mapped.status ≠ "0000" then
          let emsg := "Agent rejected bet with status: " ++ mapped.status
          let rejErr := internalServerErrorException emsg
          { result := .error rejErr
            request := some msg
            audits :=
              auditIf env.auditLogOk
                { base with
                  failureType := some .AGENT_REJECTED
                  errorMessage := some emsg
                  httpStatus := some resp.status
                  callbackUrl := some url } ++
              auditIf env.auditLogOk
                { base with
                  id := 1
                  failureType := some (classifyError rejErr)
                  errorMessage := some (jsOrStr rejErr.message "Unknown error")
                  httpStatus := catchHttpStatus rejErr
                  callbackUrl := some url } }
        else
          { result := .ok mapped
            request := some msg
            audits := auditIf env.auditLogOk
              { base with
                status := .SUCCESS
                httpStatus := some resp.status
                callbackUrl := some url } }

/-- `WalletService.settleBet`.  `resolveAgent` runs before the try block (an
unknown agent produces no audit).  Every failure path logs an audit row and —
through the `.then` chain, only when that audit write completed — enqueues a
retry job referencing the audit row's id.  An agent rejection runs this twice:
once in the rejection branch and once in the catch that receives the rethrown
exception (which re-fetches the game payloads and classifies the exception as
`HTTP_ERROR`). -/
def settleBet (env : WalletEnv) (p : SettleBetParams) : CallOutcome :=
  match env.agents p.agentId with
  | none => { result := .error (notFoundException ("Agent " ++ p.agentId ++ " not found")) }
  | some agent =>
    let url := agent.callbackURL
    let gp := fetchPayloads env p.gameCode
    let txn : WireTxn :=
      { platformTxId := p.platformTxId
        userId := p.userId
        gameCode := some gp.gameCode
        betAmount := some p.betAmount
        winAmount := some p.winAmount
        roundId := some p.roundId }
    let msg : MessageObj := { action := "settle", txns := [txn] }
    let base : AuditRecord :=
      { id := 0, requestId := env.requestId, agentId := p.agentId, userId := p.userId
        apiAction := .SETTLE_BET, status := .FAILURE
        platformTxId := some p.platformTxId, roundId := some p.roundId
        betAmount := some p.betAmount, winAmount := some p.winAmount
        callbackUrl := some url }
    let mkRetry := fun (auditId : Nat) (cur : String) (gpUsed : GamePayloads)
        (emsg : String) =>
      ({ platformTxId := p.platformTxId
         apiAction := .SETTLE_BET
         agentId := p.agentId
         userId := p.userId
         request := msg
         callbackUrl := url
         roundId := some p.roundId
         betAmount := some p.betAmount
         winAmount := some p.winAmount
         currency := some cur
         gamePayloads := gpUsed
         walletAuditId := some auditId
         errorMessage := some emsg } : RetryJob)
    match env.httpPost with
    | .error err =>
      let gp₂ := fetchPayloads env p.gameCode
      let cur := jsOrOptStr gp₂.currency "USD"
      let emsg := jsOrStr err.message "Unknown error"
      { result := .error err
        request := some msg
        audits := auditIf env.auditLogOk
          { base with
            failureType := some (classifyError err)
            errorMessage := some emsg
            httpStatus := catchHttpStatus err
            currency := some cur }
        retryJobs := retryIf env.auditLogOk (mkRetry 0 cur gp₂ emsg) }
    | .ok resp =>
      match mapAgentResponse resp.data with
      | .error mErr =>
        let gp₂ := fetchPayloads env p.gameCode
        let cur := jsOrOptStr gp₂.currency "USD"
        let emsg := jsOrStr mErr.message "Unknown error"
        { result := .error mErr
          request := some msg
          audits := auditIf env.auditLogOk
            { base with
              failureType := some (classifyError mErr)
              errorMessage := some emsg
              httpStatus := catchHttpStatus mErr
              currency := some cur }
          retryJobs := retryIf env.auditLogOk (mkRetry 0 cur gp₂ emsg) }
      | .ok mapped =>
        if mapped.status ≠ "0000" then
          let emsg := "Agent rejected settlement with status: " ++ mapped.status
          let cur := jsOrOptStr gp.currency "USD"
          let rejErr := internalServerErrorException emsg
          let gp₂ := fetchPayloads env p.gameCode
          let cur₂ := jsOrOptStr gp₂.currency "USD"
          let emsg₂ := jsOrStr rejErr.message "Unknown error"
          { result := .error rejErr
            request := some msg
            audits :=
              auditIf env.auditLogOk
                { base with
                  failureType := some .AGENT_REJECTED
                  errorMessage := some emsg
                  httpStatus := some resp.status
                  currency := some cur } ++
              auditIf env.auditLogOk
                { base with
                  id := 1
                  failureType := some (classifyError rejErr)
                  errorMessage := some emsg₂
                  httpStatus := catchHttpStatus rejErr
                  currency := some cur₂ }
            retryJobs :=
              retryIf env.auditLogOk (mkRetry 0 cur gp emsg) ++
              retryIf env.auditLogOk (mkRetry 1 cur₂ gp₂ emsg₂) }
        else
          let cur := jsOrOptStr gp.currency "USD"
          { result := .ok mapped
            request := some msg
            audits := auditIf env.auditLogOk
              { base with
                status := .SUCCESS
                httpStatus := some resp.status
                currency := some cur } }

/-- `WalletService.refundBet`.  The agent is resolved and the payload enriched
once (from the first transaction's game code, only when it is truthy); amounts
are aggregated across the batch for audit and retry rows; the retry job is
created only when a first transaction exists. -/
def refundBet (env : WalletEnv) (p : RefundBetParams) : CallOutcome :=
  match env.agents p.agentId with
  | none => { result := .error (notFoundException ("Agent " ++ p.agentId ++ " not found")) }
  | some agent =>
    let url := agent.callbackURL
    let first := p.refundTransactions.head?
    let gameCode :=
      match first with
      | some t => t.gameCode
      | none => ""
    let gp :=
      if gameCode = "" then ({ gameCode := gameCode } : GamePayloads)
      else fetchPayloads env gameCode
    let currency := jsOrOptStr gp.currency "USD"
    let txns := p.refundTransactions.map fun t =>
      ({ platformTxId := t.platformTxId
         userId := p.userId
         gameCode := some gp.gameCode
         betAmount := some t.betAmount
         winAmount := some t.winAmount
         roundId := some t.roundId
         refundPlatformTxId := some t.refundPlatformTxId } : WireTxn)
    let msg : MessageObj := { action := "cancelBet", txns := txns }
    let totalBet := p.refundTransactions.foldl (fun s t => s + t.betAmount) 0
    let totalWin := p.refundTransactions.foldl (fun s t => s + t.winAmount) 0
    let base : AuditRecord :=
      { id := 0, requestId := env.requestId, agentId := p.agentId, userId := p.userId
        apiAction := .REFUND_BET, status := .FAILURE
        platformTxId := first.map RefundTransaction.platformTxId
        roundId := first.map RefundTransaction.roundId
        betAmount := some totalBet, winAmount := some totalWin
        currency := some currency, callbackUrl := some url }
    let mkRetry := fun (auditId : Nat) (t : RefundTransaction) (emsg : String) =>
      ({ platformTxId := t.platformTxId
         apiAction := .REFUND_BET
         agentId := p.agentId
         userId := p.userId
         request := msg
         callbackUrl := url
         roundId := some t.roundId
         betAmount := some totalBet
         winAmount := some totalWin
         currency := some currency
         gamePayloads := gp
         walletAuditId := some auditId
         errorMessage := some emsg } : RetryJob)
    let retryFor := fun (auditId : Nat) (emsg : String) =>
      match first with
      | some t => retryIf env.auditLogOk (mkRetry auditId t emsg)
      | none => []
    match env.httpPost with
    | .error err =>
      let emsg := jsOrStr err.message "Unknown error"
      { result := .error err
        request := some msg
        audits := auditIf env.auditLogOk
          { base with
            failureType := some (classifyError err)
            errorMessage := some emsg
            httpStatus := catchHttpStatus err }
        retryJobs := retryFor 0 emsg }
    | .ok resp =>
      match mapAgentResponse resp.data with
      | .error mErr =>
        let emsg := jsOrStr mErr.message "Unknown error"
        { result := .error mErr
          request := some msg
          audits := auditIf env.auditLogOk
            { base with
              failureType := some (classifyError mErr)
              errorMessage := some emsg
              httpStatus := catchHttpStatus mErr }
          retryJobs := retryFor 0 emsg }
      | .ok mapped =>
        if mapped.status ≠ "0000" then
          let emsg := "Agent rejected refund with status: " ++ mapped.status
          let rejErr := internalServerErrorException emsg
          let emsg₂ := jsOrStr rejErr.message "Unknown error"
          { result := .error rejErr
            request := some msg
            audits :=
              auditIf env.auditLogOk
                { base with
                  failureType := some .AGENT_REJECTED
                  errorMessage := some emsg
                  httpStatus := some resp.status } ++
              auditIf env.auditLogOk
                { base with
                  id := 1
                  failureType := some (classifyError rejErr)
                  errorMessage := some emsg₂
                  httpStatus := catchHttpStatus rejErr }
            retryJobs := retryFor 0 emsg ++ retryFor 1 emsg₂ }
        else
          { result := .ok mapped
            request := some msg
            audits := auditIf env.auditLogOk
              { base with status := .SUCCESS, httpStatus := some resp.status } }

end WalletService

/-!
Helper lemmas and shared concrete fixtures for the claim theorems.
-/

/-- `find?` over an append when the first part has no match. -/
theorem find?_append_none {α : Type} (l₁ l₂ : List α) (p : α → Bool)
    (h : l₁.find? p = none) : (l₁ ++ l₂).find? p = l₂.find? p := by
  induction l₁ with
  | nil => rfl
  | cons a l ih =>
    cases hpa : p a with
    | true => simp [List.find?_cons_of_pos, hpa] at h
    | false =>
      rw [List.find?_cons_of_neg _ (by simp [hpa])] at h
      rw [List.cons_append, List.find?_cons_of_neg _ (by simp [hpa])]
      exact ih h

/-- The settlement truthiness test agrees with plain `Number(w) > 0`:
the empty string is falsy but also parses to `0`, which is not positive. -/
theorem winTruthyPositive_eq_jsNumberPos (w : String) :
    winTruthyPositive (some w) = jsNumberPos w := by
  by_cases h : w = ""
  · subst h; decide
  · simp [winTruthyPositive, bne, h]

/-- `jsNumberPos` unfolded to the "parses to a positive number" reading. -/
theorem jsNumberPos_iff (w : String) :
    jsNumberPos w = true ↔ ∃ q, jsNumber w = some q ∧ 0 < q := by
  unfold jsNumberPos
  cases h : jsNumber w with
  | none => simp
  | some q => simp [decide_eq_true_eq]

/-- `resolveSettleStatus` without an explicit status, in `jsNumberPos` form. -/
theorem resolveSettleStatus_none (w : String) :
    resolveSettleStatus none w = if jsNumberPos w then BetStatus.won else BetStatus.lost := by
  simp [resolveSettleStatus, winTruthyPositive_eq_jsNumberPos]

/-- A placed bet used as the base of concrete witnesses. -/
def sampleBet : Bet :=
  { externalPlatformTxId := "T1"
    userId := "U1"
    roundId := "R1"
    betAmount := "5.00"
    currency := "USD"
    status := .placed
    gameCode := "G1"
    operatorId := "OP1" }

/-- A minimal settlement request used in concrete witnesses. -/
def sampleSettlement : SettlementParams :=
  { externalPlatformTxId := "T1", winAmount := "9.000", updatedBy := "sys" }

/-- Minimal placement params used in concrete witnesses. -/
def samplePlacement : CreateBetParams :=
  { externalPlatformTxId := "T1"
    userId := "U1"
    roundId := "R1"
    betAmount := "5.00"
    currency := "USD"
    gameCode := "G1"
    createdBy := "U1"
    operatorId := "OP1" }

/-- C2: for every bet in terminal status `Won` or `Lost`, `recordSettlement`
with any parameters returns the stored row unchanged (the very same record,
every field identical) and performs no write (the store is returned as-is). -/
theorem recordSettlement_terminal_noop (store : List Bet) (p : SettlementParams)
    (now : Nat) (bet : Bet)
    (hfind : store.find? (BetService.whereByExternalTx p.externalPlatformTxId none) = some bet)
    (hterm : bet.status = .won ∨ bet.status = .lost) :
    BetService.recordSettlement store p now = .ok (store, bet) := by
  unfold BetService.recordSettlement
  rw [hfind]
  simp only [hterm, if_pos]

/-- Witness for C2 at a concrete won bet. -/
theorem recordSettlement_terminal_noop_witness :
    ([{ sampleBet with status := .won }].find?
      (BetService.whereByExternalTx sampleSettlement.externalPlatformTxId none) =
        some { sampleBet with status := .won }) ∧
    BetService.recordSettlement [{ sampleBet with status := .won }] sampleSettlement 5 =
      .ok ([{ sampleBet with status := .won }], { sampleBet with status := .won }) :=
  ⟨by decide, recordSettlement_terminal_noop _ _ _ _ (by decide) (Or.inl rfl)⟩

/-- C5: for a found non-terminal bet, an explicitly supplied `status` is
persisted as-is; otherwise the persisted status is `Won` exactly when the
resulting `winAmount` parses to a number greater than zero, and `Lost`
otherwise. -/
theorem recordSettlement_status_resolution (store : List Bet) (p : SettlementParams)
    (now : Nat) (bet : Bet)
    (hfind : store.find? (BetService.whereByExternalTx p.externalPlatformTxId none) = some bet)
    (hnt : ¬(bet.status = .won ∨ bet.status = .lost)) :
    ∃ nb, BetService.recordSettlement store p now =
        .ok (BetService.replaceFirst store
          (BetService.whereByExternalTx p.externalPlatformTxId none) nb, nb) ∧
      nb.winAmount = some p.winAmount ∧
      (∀ st, p.status = some st → nb.status = st) ∧
      (p.status = none →
        nb.status = (if jsNumberPos p.winAmount then .won else .lost) ∧
        (nb.status = .won ↔ ∃ q, jsNumber p.winAmount = some q ∧ 0 < q) ∧
        (nb.status = .lost ↔ ¬∃ q, jsNumber p.winAmount = some q ∧ 0 < q)) := by
  unfold BetService.recordSettlement
  rw [hfind]
  simp only [if_neg hnt]
  refine ⟨_, rfl, rfl, ?_, ?_⟩
  · intro st hst
    dsimp only
    rw [hst]
    rfl
  · intro hst
    dsimp only
    rw [hst, resolveSettleStatus_none]
    cases hpos : jsNumberPos p.winAmount with
    | true => simp [← jsNumberPos_iff, hpos]
    | false => simp [← jsNumberPos_iff, hpos]

/-- Witness for C5: `winAmount = "10.500"` settles to `Won`,
`winAmount = "0.000"` settles to `Lost` (no explicit status in either case). -/
theorem recordSettlement_status_resolution_witness :
    ((BetService.recordSettlement [sampleBet]
        { sampleSettlement with winAmount := "10.500" } 5).toOption.map
          (fun r => r.2.status) = some BetStatus.won) ∧
    ((BetService.recordSettlement [sampleBet]
        { sampleSettlement with winAmount := "0.000" } 5).toOption.map
          (fun r => r.2.status) = some BetStatus.lost) := by
  constructor
  · obtain ⟨nb, heq, -, -, hder⟩ :=
      recordSettlement_status_resolution [sampleBet]
        { sampleSettlement with winAmount := "10.500" } 5 sampleBet
        (by decide) (by decide)
    rw [heq]
    simp only [Except.toOption, Option.map]
    rw [(hder rfl).1]
    decide
  · obtain ⟨nb, heq, -, -, hder⟩ :=
      recordSettlement_status_resolution [sampleBet]
        { sampleSettlement with winAmount := "0.000" } 5 sampleBet
        (by decide) (by decide)
    rw [heq]
    simp only [Except.toOption, Option.map]
    rw [(hder rfl).1]
    decide

/-- C9: the terminal short-circuit covers only `Won` and `Lost` — for a bet in
any other status (`Placed`, `PendingSettlement`, `Cancelled`, `Refunded`,
`SettlementFailed`) `recordSettlement` is not a no-op: it overwrites the
provided fields and, absent an explicit status, re-derives the status to `Won`
or `Lost` (so a cancelled or refunded bet can still be settled). -/
theorem recordSettlement_nonterminal_proceeds (store : List Bet) (p : SettlementParams)
    (now : Nat) (bet : Bet)
    (hfind : store.find? (BetService.whereByExternalTx p.externalPlatformTxId none) = some bet)
    (hnt : ¬(bet.status = .won ∨ bet.status = .lost)) :
    ∃ nb, BetService.recordSettlement store p now =
        .ok (BetService.replaceFirst store
          (BetService.whereByExternalTx p.externalPlatformTxId none) nb, nb) ∧
      nb.winAmount = some p.winAmount ∧
      nb.updatedBy = some p.updatedBy ∧
      (p.status = none →
        nb.status = (if jsNumberPos p.winAmount then .won else .lost) ∧
        (nb.status = .won ∨ nb.status = .lost) ∧
        nb.status ≠ bet.status) := by
  unfold BetService.recordSettlement
  rw [hfind]
  simp only [if_neg hnt]
  refine ⟨_, rfl, rfl, rfl, ?_⟩
  intro hst
  dsimp only
  rw [hst, resolveSettleStatus_none]
  cases hpos : jsNumberPos p.winAmount with
  | true => exact ⟨rfl, Or.inl rfl, fun hc => hnt (Or.inl hc.symm)⟩
  | false => exact ⟨rfl, Or.inr rfl, fun hc => hnt (Or.inr hc.symm)⟩

/-- Witness for C9: a cancelled bet is re-settled to `Won` by a later
settlement request. -/
theorem recordSettlement_nonterminal_proceeds_witness :
    (BetService.recordSettlement [{ sampleBet with status := .cancelled }]
        sampleSettlement 5).toOption.map (fun r => r.2.status) =
      some BetStatus.won := by
  obtain ⟨nb, heq, -, -, hder⟩ :=
    recordSettlement_nonterminal_proceeds [{ sampleBet with status := .cancelled }]
      sampleSettlement 5 { sampleBet with status := .cancelled }
      (by decide) (by decide)
  rw [heq]
  simp only [Except.toOption, Option.map]
  rw [(hder rfl).1]
  decide

/-- C6 counterexample: in the second `recordSettlement` copy present in the
repository, a settlement request that omits `settlementRefTxId` does not leave
the stored value `some "REF"` in place — the column is overwritten with the
absent parameter. -/
theorem recordSettlementV2_nulls_omitted_counterexample :
    (BetService.recordSettlementV2
        [{ sampleBet with settlementRefTxId := some "REF" }]
        { externalPlatformTxId := "T1", winAmount := "9.000", updatedBy := "sys" }
        5).toOption.map (fun r => r.2.settlementRefTxId) = some none := by decide

/-- C6 (amended): in the primary `recordSettlement`, every optional field the
caller omits keeps its pre-call stored value and `settledAt` defaults to the
current time exactly when not supplied; in the repository's second copy only
`gameMetadata` is guarded — the other optional settlement columns are assigned
unconditionally from the (possibly absent) parameters, while `settledAt` still
defaults to the current time. -/
theorem recordSettlement_omitted_fields (store : List Bet) (now : Nat) (bet : Bet) :
    (∀ p : SettlementParams,
      store.find? (BetService.whereByExternalTx p.externalPlatformTxId none) = some bet →
      ¬(bet.status = .won ∨ bet.status = .lost) →
      ∃ nb, BetService.recordSettlement store p now =
          .ok (BetService.replaceFirst store
            (BetService.whereByExternalTx p.externalPlatformTxId none) nb, nb) ∧
        (p.gameMetadata = none → nb.gameMetadata = bet.gameMetadata) ∧
        (p.settlementRefTxId = none → nb.settlementRefTxId = bet.settlementRefTxId) ∧
        (p.balanceAfterSettlement = none →
          nb.balanceAfterSettlement = bet.balanceAfterSettlement) ∧
        (p.gameInfo = none → nb.gameInfo = bet.gameInfo) ∧
        (p.finalCoeff = none → nb.finalCoeff = bet.finalCoeff) ∧
        (p.withdrawCoeff = none → nb.withdrawCoeff = bet.withdrawCoeff) ∧
        (p.fairnessData = none → nb.fairnessData = bet.fairnessData) ∧
        (p.isPremium = none → nb.isPremium = bet.isPremium) ∧
        (p.betPlacedAt = none → nb.betPlacedAt = bet.betPlacedAt) ∧
        (p.balanceAfterBet = none → nb.balanceAfterBet = bet.balanceAfterBet) ∧
        (p.userId = none → nb.userId = bet.userId) ∧
        (p.roundId = none → nb.roundId = bet.roundId) ∧
        (p.betAmount = none → nb.betAmount = bet.betAmount) ∧
        (p.currency = none → nb.currency = bet.currency) ∧
        (p.gameCode = none → nb.gameCode = bet.gameCode) ∧
        (p.operatorId = none → nb.operatorId = bet.operatorId) ∧
        (p.settledAt = none → nb.settledAt = some now) ∧
        (∀ t, p.settledAt = some t → nb.settledAt = some t)) ∧
    (∀ p : SettlementParamsV2,
      store.find? (BetService.whereByExternalTx p.externalPlatformTxId none) = some bet →
      ¬(bet.status = .won ∨ bet.status = .lost) →
      ∃ nb, BetService.recordSettlementV2 store p now =
          .ok (BetService.replaceFirst store
            (BetService.whereByExternalTx p.externalPlatformTxId none) nb, nb) ∧
        (p.gameMetadata = none → nb.gameMetadata = bet.gameMetadata) ∧
        nb.settlementRefTxId = p.settlementRefTxId ∧
        nb.balanceAfterSettlement = p.balanceAfterSettlement ∧
        nb.gameInfo = p.gameInfo ∧
        nb.finalCoeff = p.finalCoeff ∧
        nb.withdrawCoeff = p.withdrawCoeff ∧
        nb.fairnessData = p.fairnessData ∧
        (p.settledAt = none → nb.settledAt = some now)) := by
  constructor
  · intro p hfind hnt
    unfold BetService.recordSettlement
    rw [hfind]
    simp only [if_neg hnt]
    refine ⟨_, rfl, ?_, ?_, ?_, ?_, ?_, ?_, ?_, ?_, ?_, ?_, ?_, ?_, ?_, ?_, ?_, ?_, ?_, ?_⟩ <;>
      first
        | (intro h; simp [h, applyProvided])
        | (intro t ht; simp [ht])
  · intro p hfind hnt
    unfold BetService.recordSettlementV2
    rw [hfind]
    simp only [if_neg hnt]
    refine ⟨_, rfl, ?_, rfl, rfl, rfl, rfl, rfl, rfl, ?_⟩
    · intro h; simp [h, applyProvided]
    · intro h; simp [h]

/-- Witness for C6 (primary copy, at concrete inputs): a stored
`settlementRefTxId = some "REF"` survives a settlement that omits the field,
and `settledAt` is defaulted to the call time. -/
theorem recordSettlement_omitted_fields_witness :
    ((BetService.recordSettlement [{ sampleBet with settlementRefTxId := some "REF" }]
        sampleSettlement 5).toOption.map (fun r => r.2.settlementRefTxId) =
      some (some "REF")) ∧
    ((BetService.recordSettlement [{ sampleBet with settlementRefTxId := some "REF" }]
        sampleSettlement 5).toOption.map (fun r => r.2.settledAt) = some (some 5)) := by
  obtain ⟨h1, -⟩ :=
    recordSettlement_omitted_fields [{ sampleBet with settlementRefTxId := some "REF" }] 5
      { sampleBet with settlementRefTxId := some "REF" }
  obtain ⟨nb, heq, hgm, href, hbas, hgi, hfc, hwc, hfd, hip, hbp, hbab, huid, hrid,
    hba, hcur, hgc, hop, hsn, hss⟩ := h1 sampleSettlement (by decide) (by decide)
  constructor
  · rw [heq]
    simp only [Except.toOption, Option.map]
    rw [href rfl]
  · rw [heq]
    simp only [Except.toOption, Option.map]
    rw [hsn rfl]

/-- C7 counterexample: `updateStatus` moves a `Won` bet straight back to
`Placed` — status transitions are not forward-only across the ledger's update
operations. -/
theorem updateStatus_backward_counterexample :
    (BetService.updateStatus [{ sampleBet with status := .won }]
        { externalPlatformTxId := "T1", status := .placed, updatedBy := "sys" }).toOption.map
      (fun r => r.2.status) = some BetStatus.placed := by decide

/-- C7 (amended): only `recordSettlement` enforces terminality — a bet that
reached `Won` or `Lost` keeps its status (and the store is unchanged) under
any further settlement attempt; `updateStatus` (and with it
`markPendingSettlement` / `markSettlementFailed`, which delegate to it) sets
the requested status unconditionally, so those operations can move a status
backward toward `Placed`. -/
theorem bet_status_transitions (store : List Bet) :
    (∀ (p : SettlementParams) (now : Nat) (bet : Bet),
      store.find? (BetService.whereByExternalTx p.externalPlatformTxId none) = some bet →
      bet.status = .won ∨ bet.status = .lost →
      ∃ r, BetService.recordSettlement store p now = .ok r ∧
        r.2.status = bet.status ∧ r.1 = store) ∧
    (∀ (p : UpdateBetStatusParams) (bet : Bet),
      store.find? (BetService.whereByExternalTx p.externalPlatformTxId none) = some bet →
      ∃ r, BetService.updateStatus store p = .ok r ∧ r.2.status = p.status) := by
  constructor
  · intro p now bet hfind hterm
    unfold BetService.recordSettlement
    rw [hfind]
    simp only [if_pos hterm]
    exact ⟨(store, bet), rfl, rfl, rfl⟩
  · intro p bet hfind
    unfold BetService.updateStatus
    rw [hfind]
    exact ⟨_, rfl, rfl⟩

/-- Witness for the amended C7 at concrete inputs: a lost bet keeps `Lost`
under re-settlement, and `updateStatus` installs exactly the requested
status. -/
theorem bet_status_transitions_witness :
    ((BetService.recordSettlement [{ sampleBet with status := .lost }]
        sampleSettlement 5).toOption.map (fun r => r.2.status) = some BetStatus.lost) ∧
    ((BetService.updateStatus [{ sampleBet with status := .won }]
        { externalPlatformTxId := "T1", status := .pendingSettlement,
          updatedBy := "sys" }).toOption.map (fun r => r.2.status) =
      some BetStatus.pendingSettlement) := by
  obtain ⟨h1, h2⟩ := bet_status_transitions [{ sampleBet with status := .lost }]
  obtain ⟨r, heq, hst, -⟩ :=
    h1 sampleSettlement 5 { sampleBet with status := .lost } (by decide) (Or.inr rfl)
  obtain ⟨h1w, h2w⟩ := bet_status_transitions [{ sampleBet with status := .won }]
  obtain ⟨r', heq', hst'⟩ :=
    h2w { externalPlatformTxId := "T1", status := .pendingSettlement, updatedBy := "sys" }
      { sampleBet with status := .won } (by decide)
  constructor
  · rw [heq]
    simp only [Except.toOption, Option.map]
    rw [hst]
  · rw [heq']
    simp only [Except.toOption, Option.map]
    rw [hst']

/-- C1: with the game validator passing (or absent), a placement whose
`(externalPlatformTxId, gameCode)` pair already has a stored row fails with
`Conflict` and performs no mutation (no store is produced); and starting from
a store with no row matching the placement lookup, the first call inserts one
row whose status defaults to `Placed` while the second identical call gets the
`Conflict`, leaving exactly one stored row with that pair. -/
theorem createPlacement_idempotent (v : BetService.GameValidator) (store : List Bet)
    (p : CreateBetParams) (hv : BetService.validatorOk v p.gameCode) :
    ((∃ b ∈ store, b.externalPlatformTxId = p.externalPlatformTxId ∧
        b.gameCode = p.gameCode) →
      BetService.createPlacement v store p =
        .error (.conflict "Bet already exists (idempotent placement)")) ∧
    (store.find? (BetService.whereByExternalTx p.externalPlatformTxId (some p.gameCode)) =
        none →
      p.status = none →
      ∃ entity,
        BetService.createPlacement v store p = .ok (store ++ [entity], entity) ∧
        entity.status = .placed ∧
        entity.externalPlatformTxId = p.externalPlatformTxId ∧
        entity.gameCode = p.gameCode ∧
        BetService.createPlacement v (store ++ [entity]) p =
          .error (.conflict "Bet already exists (idempotent placement)") ∧
        ((store ++ [entity]).filter (fun b =>
          b.externalPlatformTxId == p.externalPlatformTxId &&
            b.gameCode == p.gameCode)).length = 1) := by
  have hval : (match v with
      | some validateGame => validateGame p.gameCode
      | none => Except.ok ()) = Except.ok () := by
    cases v with
    | none => rfl
    | some f => exact hv
  constructor
  · rintro ⟨b, hb, hbtx, hbgc⟩
    have hsome : (store.find?
        (BetService.whereByExternalTx p.externalPlatformTxId (some p.gameCode))).isSome := by
      rw [List.find?_isSome]
      exact ⟨b, hb, by simp [BetService.whereByExternalTx, hbtx, hbgc]⟩
    unfold BetService.createPlacement
    rw [hval]
    cases hf : store.find?
        (BetService.whereByExternalTx p.externalPlatformTxId (some p.gameCode)) with
    | none => rw [hf] at hsome; simp at hsome
    | some b' => rfl
  · intro hfind hstat
    unfold BetService.createPlacement
    rw [hval, hfind]
    refine ⟨_, rfl, by simp [hstat], rfl, rfl, ?_, ?_⟩
    · rw [find?_append_none _ _ _ hfind,
        List.find?_cons_of_pos _ (by simp [BetService.whereByExternalTx])]
    · rw [List.filter_append]
      have h1 : store.filter (fun b =>
          b.externalPlatformTxId == p.externalPlatformTxId &&
            b.gameCode == p.gameCode) = [] := by
        rw [List.filter_eq_nil_iff]
        intro b hb hpair
        have hnone := List.find?_eq_none.mp hfind b hb
        apply hnone
        simp only [BetService.whereByExternalTx, Bool.and_eq_true, beq_iff_eq] at hpair ⊢
        exact ⟨hpair.1, by simp [hpair.2]⟩
      rw [h1]
      simp [BetService.whereByExternalTx]

/-- Witness for C1 at concrete inputs: an empty store, no validator, default
status. -/
theorem createPlacement_idempotent_witness :
    BetService.validatorOk none samplePlacement.gameCode ∧
    (([] : List Bet).find? (BetService.whereByExternalTx
      samplePlacement.externalPlatformTxId (some samplePlacement.gameCode)) = none) ∧
    samplePlacement.status = none ∧
    (∃ entity : Bet,
      BetService.createPlacement none [] samplePlacement = .ok ([] ++ [entity], entity) ∧
      entity.status = .placed ∧
      entity.externalPlatformTxId = samplePlacement.externalPlatformTxId ∧
      entity.gameCode = samplePlacement.gameCode ∧
      BetService.createPlacement none ([] ++ [entity]) samplePlacement =
        .error (.conflict "Bet already exists (idempotent placement)") ∧
      (([] ++ [entity]).filter (fun b : Bet =>
        b.externalPlatformTxId == samplePlacement.externalPlatformTxId &&
          b.gameCode == samplePlacement.gameCode)).length = 1) :=
  ⟨trivial, rfl, rfl,
    (createPlacement_idempotent none [] samplePlacement trivial).2 rfl rfl⟩

/-- A resolvable agent used in concrete wallet witnesses. -/
def sampleAgent : Agent :=
  { agentId := "A1", callbackURL := "http://agent.example/cb", cert := "CERT" }

/-- A wallet environment whose directory knows only agent `A1`, with no
game-payload adapter, a working audit log, and the given HTTP outcome. -/
def envWith (post : Except JsError HttpResp) : WalletEnv :=
  { agents := fun a => if a = "A1" then some sampleAgent else none
    walletApiAdapter := none
    httpPost := post
    requestId := "REQ"
    auditLogOk := true }

/-- A well-formed response whose status sentinel is not the success value. -/
def rejectedResp : HttpResp := { data := some { status := some "9999" }, status := 200 }

/-- A thrown axios connection error (`ECONNREFUSED`, no HTTP response). -/
def networkError : JsError :=
  { code := some "ECONNREFUSED", name := "Error", message := "connect ECONNREFUSED" }

/-- Concrete placement-call params for witnesses. -/
def samplePlaceBet : PlaceBetParams :=
  { agentId := "A1", userId := "U1", amount := 5, roundId := "R1"
    platformTxId := "T1", gameCode := "G1" }

/-- Concrete settlement-call params for witnesses. -/
def sampleSettleBet : SettleBetParams :=
  { agentId := "A1", platformTxId := "T1", userId := "U1", winAmount := 9
    roundId := "R1", betAmount := 5, gameCode := "G1" }

/-- One refund transaction for witnesses. -/
def sampleRefundTxn : RefundTransaction :=
  { platformTxId := "T1", refundPlatformTxId := "RT1", betAmount := 5, winAmount := 0
    roundId := "R1", gameCode := "G1" }

/-- A refund batch with a single transaction. -/
def sampleRefund : RefundBetParams :=
  { agentId := "A1", userId := "U1", refundTransactions := [sampleRefundTxn] }

/-- A refund call with an empty batch. -/
def sampleRefundEmpty : RefundBetParams :=
  { agentId := "A1", userId := "U1", refundTransactions := [] }

/-- Membership in a gated audit write pins down the record. -/
theorem mem_auditIf {ok : Bool} {rec a : AuditRecord}
    (h : a ∈ WalletService.auditIf ok rec) : a = rec := by
  unfold WalletService.auditIf at h
  split at h
  · simpa using h
  · simp at h

/-- A response body that is not an object or whose status is not a string. -/
def lacksStringStatus (data : Option AgentData) : Prop :=
  data = none ∨ ∃ d, data = some d ∧ d.status = none

/-- `mapAgentResponse` on a status-less body: the malformed-response error,
before any sentinel comparison. -/
theorem mapAgentResponse_malformed (data : Option AgentData)
    (h : lacksStringStatus data) :
    WalletService.mapAgentResponse data =
      .error (WalletService.internalServerErrorException "Malformed agent response") := by
  rcases h with h | ⟨d, hd, hs⟩
  · rw [h]; rfl
  · subst hd
    unfold WalletService.mapAgentResponse
    dsimp only
    rw [hs]

/-- `mapAgentResponse` on a well-formed body. -/
theorem mapAgentResponse_wellFormed (d : AgentData) (s : String)
    (hs : d.status = some s) :
    WalletService.mapAgentResponse (some d) =
      .ok { balance := d.balance.getD 0, balanceTs := d.balanceTs
            status := s, userId := d.userId } := by
  unfold WalletService.mapAgentResponse
  dsimp only
  rw [hs]

/-- C8: a wallet response lacking a string-typed status field makes the call
fail with the malformed-response error, before the sentinel comparison: the
surfaced error is the `MalformedResponse` exception (not an agent-rejection
and not the transport error object), and no audit row is classified
`AGENT_REJECTED`. -/
theorem malformed_response_short_circuit :
    (∀ data, lacksStringStatus data →
      WalletService.mapAgentResponse data =
        .error (WalletService.internalServerErrorException "Malformed agent response")) ∧
    (∀ (env : WalletEnv) (aId uId : String) (ag : Agent) (resp : HttpResp),
      env.agents aId = some ag → env.httpPost = .ok resp →
      lacksStringStatus resp.data →
      (WalletService.getBalance env aId uId).result =
        .error (WalletService.internalServerErrorException "Malformed agent response") ∧
      ∀ a ∈ (WalletService.getBalance env aId uId).audits,
        a.failureType ≠ some .AGENT_REJECTED) ∧
    (∀ (env : WalletEnv) (p : PlaceBetParams) (ag : Agent) (resp : HttpResp),
      env.agents p.agentId = some ag → env.httpPost = .ok resp →
      lacksStringStatus resp.data →
      (WalletService.placeBet env p).result =
        .error (WalletService.internalServerErrorException "Malformed agent response") ∧
      ∀ a ∈ (WalletService.placeBet env p).audits,
        a.failureType ≠ some .AGENT_REJECTED) ∧
    (∀ (env : WalletEnv) (p : SettleBetParams) (ag : Agent) (resp : HttpResp),
      env.agents p.agentId = some ag → env.httpPost = .ok resp →
      lacksStringStatus resp.data →
      (WalletService.settleBet env p).result =
        .error (WalletService.internalServerErrorException "Malformed agent response") ∧
      ∀ a ∈ (WalletService.settleBet env p).audits,
        a.failureType ≠ some .AGENT_REJECTED) ∧
    (∀ (env : WalletEnv) (p : RefundBetParams) (ag : Agent) (resp : HttpResp),
      env.agents p.agentId = some ag → env.httpPost = .ok resp →
      lacksStringStatus resp.data →
      (WalletService.refundBet env p).result =
        .error (WalletService.internalServerErrorException "Malformed agent response") ∧
      ∀ a ∈ (WalletService.refundBet env p).audits,
        a.failureType ≠ some .AGENT_REJECTED) := by
  refine ⟨mapAgentResponse_malformed, ?_, ?_, ?_, ?_⟩
  · intro env aId uId ag resp hA hH hmal
    have hm := mapAgentResponse_malformed resp.data hmal
    unfold WalletService.getBalance
    rw [hA]
    dsimp only
    rw [hH]
    dsimp only
    rw [hm]
    refine ⟨rfl, ?_⟩
    intro a ha
    rw [mem_auditIf ha]
    simp [WalletService.classifyError, WalletService.internalServerErrorException]
  · intro env p ag resp hA hH hmal
    have hm := mapAgentResponse_malformed resp.data hmal
    unfold WalletService.placeBet
    rw [hA]
    dsimp only
    rw [hH]
    dsimp only
    rw [hm]
    refine ⟨rfl, ?_⟩
    intro a ha
    rw [mem_auditIf ha]
    simp [WalletService.classifyError, WalletService.internalServerErrorException]
  · intro env p ag resp hA hH hmal
    have hm := mapAgentResponse_malformed resp.data hmal
    unfold WalletService.settleBet
    rw [hA]
    dsimp only
    rw [hH]
    dsimp only
    rw [hm]
    refine ⟨rfl, ?_⟩
    intro a ha
    rw [mem_auditIf ha]
    simp [WalletService.classifyError, WalletService.internalServerErrorException]
  · intro env p ag resp hA hH hmal
    have hm := mapAgentResponse_malformed resp.data hmal
    unfold WalletService.refundBet
    rw [hA]
    dsimp only
    rw [hH]
    dsimp only
    rw [hm]
    refine ⟨rfl, ?_⟩
    intro a ha
    rw [mem_auditIf ha]
    simp [WalletService.classifyError, WalletService.internalServerErrorException]

/-- Witness for C8: a `200` response with body `{}` (no status string) on each
of the four calls against a concrete environment. -/
theorem malformed_response_short_circuit_witness :
    lacksStringStatus (HttpResp.data { data := some {}, status := 200 }) ∧
    ((WalletService.getBalance (envWith (.ok { data := some {}, status := 200 })) "A1"
        "U1").result =
      .error (WalletService.internalServerErrorException "Malformed agent response")) ∧
    ((WalletService.placeBet (envWith (.ok { data := some {}, status := 200 }))
        samplePlaceBet).result =
      .error (WalletService.internalServerErrorException "Malformed agent response")) ∧
    ((WalletService.settleBet (envWith (.ok { data := some {}, status := 200 }))
        sampleSettleBet).result =
      .error (WalletService.internalServerErrorException "Malformed agent response")) ∧
    ((WalletService.refundBet (envWith (.ok { data := some {}, status := 200 }))
        sampleRefund).result =
      .error (WalletService.internalServerErrorException "Malformed agent response")) := by
  have hmal : lacksStringStatus (HttpResp.data { data := some {}, status := 200 }) :=
    Or.inr ⟨{}, rfl, rfl⟩
  obtain ⟨-, hg, hp, hs, hr⟩ := malformed_response_short_circuit
  exact ⟨hmal,
    (hg (envWith (.ok { data := some {}, status := 200 })) "A1" "U1" sampleAgent _
      (by decide) rfl hmal).1,
    (hp (envWith (.ok { data := some {}, status := 200 })) samplePlaceBet sampleAgent _
      (by decide) rfl hmal).1,
    (hs (envWith (.ok { data := some {}, status := 200 })) sampleSettleBet sampleAgent _
      (by decide) rfl hmal).1,
    (hr (envWith (.ok { data := some {}, status := 200 })) sampleRefund sampleAgent _
      (by decide) rfl hmal).1⟩

/-- C3 counterexample: an application-level rejection (`status = "9999"`) on
`placeBet` produces two audit rows, not exactly one — the rejection branch
logs an `AGENT_REJECTED` failure, then throws, and the function's own catch
block re-logs the rethrown exception as an `HTTP_ERROR` failure. -/
theorem placeBet_rejection_double_audit_counterexample :
    ((WalletService.placeBet (envWith (.ok rejectedResp)) samplePlaceBet).audits.length = 2) ∧
    ((WalletService.placeBet (envWith (.ok rejectedResp)) samplePlaceBet).audits.map
      AuditRecord.failureType =
      [some .AGENT_REJECTED, some .HTTP_ERROR]) := by
  constructor <;> rfl

/-- C3 (amended): a wallet call whose well-formed response carries a
non-success sentinel fails with the agent-rejection error (the exception built
in the rejection branch — not a transport error object), and produces exactly
two `AuditRecord`s, both with `status = Failure`: the first classified
`AGENT_REJECTED`, the second classified `HTTP_ERROR` by the surrounding catch
that re-classifies the rethrown rejection exception. -/
theorem agent_rejection_two_failure_audits
    (env : WalletEnv) (ag : Agent) (resp : HttpResp) (d : AgentData) (s : String)
    (hok : env.auditLogOk = true) (hH : env.httpPost = .ok resp)
    (hd : resp.data = some d) (hs : d.status = some s) (hne : s ≠ "0000") :
    (∀ aId uId, env.agents aId = some ag →
      (WalletService.getBalance env aId uId).result =
        .error (WalletService.internalServerErrorException
          ("Agent rejected getBalance with status: " ++ s)) ∧
      (WalletService.getBalance env aId uId).audits.map
          (fun a => (a.status, a.failureType)) =
        [(.FAILURE, some .AGENT_REJECTED), (.FAILURE, some .HTTP_ERROR)]) ∧
    (∀ p : PlaceBetParams, env.agents p.agentId = some ag →
      (WalletService.placeBet env p).result =
        .error (WalletService.internalServerErrorException
          ("Agent rejected bet with status: " ++ s)) ∧
      (WalletService.placeBet env p).audits.map
          (fun a => (a.status, a.failureType)) =
        [(.FAILURE, some .AGENT_REJECTED), (.FAILURE, some .HTTP_ERROR)]) ∧
    (∀ p : SettleBetParams, env.agents p.agentId = some ag →
      (WalletService.settleBet env p).result =
        .error (WalletService.internalServerErrorException
          ("Agent rejected settlement with status: " ++ s)) ∧
      (WalletService.settleBet env p).audits.map
          (fun a => (a.status, a.failureType)) =
        [(.FAILURE, some .AGENT_REJECTED), (.FAILURE, some .HTTP_ERROR)]) ∧
    (∀ p : RefundBetParams, env.agents p.agentId = some ag →
      (WalletService.refundBet env p).result =
        .error (WalletService.internalServerErrorException
          ("Agent rejected refund with status: " ++ s)) ∧
      (WalletService.refundBet env p).audits.map
          (fun a => (a.status, a.failureType)) =
        [(.FAILURE, some .AGENT_REJECTED), (.FAILURE, some .HTTP_ERROR)]) := by
  have hm := mapAgentResponse_wellFormed d s hs
  refine ⟨?_, ?_, ?_, ?_⟩
  · intro aId uId hA
    unfold WalletService.getBalance
    rw [hA]
    dsimp only
    rw [hH]
    dsimp only
    rw [hd, hm]
    dsimp only
    rw [if_pos hne]
    exact ⟨rfl, by simp [WalletService.auditIf, hok, WalletService.classifyError,
      WalletService.internalServerErrorException]⟩
  · intro p hA
    unfold WalletService.placeBet
    rw [hA]
    dsimp only
    rw [hH]
    dsimp only
    rw [hd, hm]
    dsimp only
    rw [if_pos hne]
    exact ⟨rfl, by simp [WalletService.auditIf, hok, WalletService.classifyError,
      WalletService.internalServerErrorException]⟩
  · intro p hA
    unfold WalletService.settleBet
    rw [hA]
    dsimp only
    rw [hH]
    dsimp only
    rw [hd, hm]
    dsimp only
    rw [if_pos hne]
    exact ⟨rfl, by simp [WalletService.auditIf, hok, WalletService.classifyError,
      WalletService.internalServerErrorException]⟩
  · intro p hA
    unfold WalletService.refundBet
    rw [hA]
    dsimp only
    rw [hH]
    dsimp only
    rw [hd, hm]
    dsimp only
    rw [if_pos hne]
    exact ⟨rfl, by simp [WalletService.auditIf, hok, WalletService.classifyError,
      WalletService.internalServerErrorException]⟩

/-- Witness for the amended C3: sentinel `"9999"` on all four calls against a
concrete environment. -/
theorem agent_rejection_two_failure_audits_witness :
    ((WalletService.getBalance (envWith (.ok rejectedResp)) "A1" "U1").audits.map
        (fun a => (a.status, a.failureType)) =
      [(.FAILURE, some .AGENT_REJECTED), (.FAILURE, some .HTTP_ERROR)]) ∧
    ((WalletService.settleBet (envWith (.ok rejectedResp)) sampleSettleBet).audits.map
        (fun a => (a.status, a.failureType)) =
      [(.FAILURE, some .AGENT_REJECTED), (.FAILURE, some .HTTP_ERROR)]) ∧
    ((WalletService.refundBet (envWith (.ok rejectedResp)) sampleRefund).audits.map
        (fun a => (a.status, a.failureType)) =
      [(.FAILURE, some .AGENT_REJECTED), (.FAILURE, some .HTTP_ERROR)]) := by
  obtain ⟨hg, hp, hs, hr⟩ :=
    agent_rejection_two_failure_audits (envWith (.ok rejectedResp)) sampleAgent
      rejectedResp { status := some "9999" } "9999" rfl rfl rfl rfl (by decide)
  exact ⟨(hg "A1" "U1" (by decide)).2, (hs sampleSettleBet (by decide)).2,
    (hr sampleRefund (by decide)).2⟩

/-- C4 counterexample: an application rejection on `settleBet` creates two
retry jobs (the rejection branch's audit-retry chain plus the catch block's),
not exactly one. -/
theorem settleBet_rejection_double_retry_counterexample :
    (WalletService.settleBet (envWith (.ok rejectedResp)) sampleSettleBet).retryJobs.length
      = 2 := by rfl

/-- C4 (amended): a `settleBet` or `refundBet` transport failure produces
exactly one audit row and exactly one retry job whose `walletAuditId` is that
row's id, and the original error is still surfaced; an application rejection
runs that audit-then-retry chain twice, giving two audit/retry pairs, each
retry job referencing its own audit row; `placeBet` and `getBalance` never
create a retry job; and when the audit write fails, the chained retry job is
skipped too. -/
theorem retry_job_policy :
    (∀ (env : WalletEnv) (p : SettleBetParams) (ag : Agent) (e : JsError),
      env.auditLogOk = true → env.agents p.agentId = some ag →
      env.httpPost = .error e →
      (WalletService.settleBet env p).result = .error e ∧
      (WalletService.settleBet env p).audits.length = 1 ∧
      (WalletService.settleBet env p).retryJobs.length = 1 ∧
      (WalletService.settleBet env p).retryJobs.map RetryJob.walletAuditId =
        (WalletService.settleBet env p).audits.map (fun a => some a.id)) ∧
    (∀ (env : WalletEnv) (p : RefundBetParams) (ag : Agent) (e : JsError)
        (t : RefundTransaction) (ts : List RefundTransaction),
      env.auditLogOk = true → env.agents p.agentId = some ag →
      p.refundTransactions = t :: ts → env.httpPost = .error e →
      (WalletService.refundBet env p).result = .error e ∧
      (WalletService.refundBet env p).audits.length = 1 ∧
      (WalletService.refundBet env p).retryJobs.length = 1 ∧
      (WalletService.refundBet env p).retryJobs.map RetryJob.walletAuditId =
        (WalletService.refundBet env p).audits.map (fun a => some a.id)) ∧
    (∀ (env : WalletEnv) (p : SettleBetParams) (ag : Agent) (resp : HttpResp)
        (d : AgentData) (s : String),
      env.auditLogOk = true → env.agents p.agentId = some ag →
      env.httpPost = .ok resp → resp.data = some d → d.status = some s →
      s ≠ "0000" →
      (WalletService.settleBet env p).audits.length = 2 ∧
      (WalletService.settleBet env p).retryJobs.length = 2 ∧
      (WalletService.settleBet env p).retryJobs.map RetryJob.walletAuditId =
        (WalletService.settleBet env p).audits.map (fun a => some a.id)) ∧
    (∀ (env : WalletEnv) (p : PlaceBetParams),
      (WalletService.placeBet env p).retryJobs = []) ∧
    (∀ (env : WalletEnv) (aId uId : String),
      (WalletService.getBalance env aId uId).retryJobs = []) ∧
    (∀ (env : WalletEnv) (p : SettleBetParams) (ag : Agent) (e : JsError),
      env.auditLogOk = false → env.agents p.agentId = some ag →
      env.httpPost = .error e →
      (WalletService.settleBet env p).result = .error e ∧
      (WalletService.settleBet env p).audits = [] ∧
      (WalletService.settleBet env p).retryJobs = []) := by
  refine ⟨?_, ?_, ?_, ?_, ?_, ?_⟩
  · intro env p ag e hok hA hH
    unfold WalletService.settleBet
    rw [hA]
    dsimp only
    rw [hH]
    dsimp only
    exact ⟨rfl, by simp [WalletService.auditIf, WalletService.retryIf, hok],
      by simp [WalletService.auditIf, WalletService.retryIf, hok],
      by simp [WalletService.auditIf, WalletService.retryIf, hok]⟩
  · intro env p ag e t ts hok hA hTx hH
    have hF : p.refundTransactions.head? = some t := by rw [hTx]; rfl
    unfold WalletService.refundBet
    rw [hA]
    dsimp only
    rw [hH, hF]
    dsimp only
    exact ⟨rfl, by simp [WalletService.auditIf, WalletService.retryIf, hok],
      by simp [WalletService.auditIf, WalletService.retryIf, hok],
      by simp [WalletService.auditIf, WalletService.retryIf, hok]⟩
  · intro env p ag resp d s hok hA hH hd hs hne
    have hm := mapAgentResponse_wellFormed d s hs
    unfold WalletService.settleBet
    rw [hA]
    dsimp only
    rw [hH]
    dsimp only
    rw [hd, hm]
    dsimp only
    rw [if_pos hne]
    exact ⟨by simp [WalletService.auditIf, hok],
      by simp [WalletService.retryIf, hok],
      by simp [WalletService.auditIf, WalletService.retryIf, hok]⟩
  · intro env p
    unfold WalletService.placeBet
    cases hA : env.agents p.agentId with
    | none => rfl
    | some ag =>
      dsimp only
      cases hH : env.httpPost with
      | error e => rfl
      | ok resp =>
        dsimp only
        cases hm : WalletService.mapAgentResponse resp.data with
        | error e => rfl
        | ok mapped =>
          dsimp only
          by_cases hne : mapped.status ≠ "0000"
          · rw [if_pos hne]
          · rw [if_neg hne]
  · intro env aId uId
    unfold WalletService.getBalance
    cases hA : env.agents aId with
    | none => rfl
    | some ag =>
      dsimp only
      cases hH : env.httpPost with
      | error e => rfl
      | ok resp =>
        dsimp only
        cases hm : WalletService.mapAgentResponse resp.data with
        | error e => rfl
        | ok mapped =>
          dsimp only
          by_cases hne : mapped.status ≠ "0000"
          · rw [if_pos hne]
          · rw [if_neg hne]
  · intro env p ag e hok hA hH
    unfold WalletService.settleBet
    rw [hA]
    dsimp only
    rw [hH]
    dsimp only
    exact ⟨rfl, by simp [WalletService.auditIf, hok],
      by simp [WalletService.retryIf, hok]⟩

/-- Witness for the amended C4: a connection-refused `settleBet` makes one
audit/retry pair with the retry referencing audit id 0; a rejected `settleBet`
makes two pairs; a failing `placeBet` makes none. -/
theorem retry_job_policy_witness :
    ((WalletService.settleBet (envWith (.error networkError)) sampleSettleBet).audits.length
      = 1) ∧
    ((WalletService.settleBet (envWith (.error networkError))
        sampleSettleBet).retryJobs.map RetryJob.walletAuditId =
      (WalletService.settleBet (envWith (.error networkError)) sampleSettleBet).audits.map
        (fun a => some a.id)) ∧
    ((WalletService.refundBet (envWith (.error networkError)) sampleRefund).retryJobs.length
      = 1) ∧
    ((WalletService.settleBet (envWith (.ok rejectedResp)) sampleSettleBet).retryJobs.map
        RetryJob.walletAuditId =
      (WalletService.settleBet (envWith (.ok rejectedResp)) sampleSettleBet).audits.map
        (fun a => some a.id)) ∧
    ((WalletService.placeBet (envWith (.error networkError)) samplePlaceBet).retryJobs
      = []) := by
  obtain ⟨h1, h2, h3, h4, h5, -⟩ := retry_job_policy
  refine ⟨(h1 (envWith (.error networkError)) sampleSettleBet sampleAgent networkError
      rfl (by decide) rfl).2.1,
    (h1 (envWith (.error networkError)) sampleSettleBet sampleAgent networkError
      rfl (by decide) rfl).2.2.2,
    (h2 (envWith (.error networkError)) sampleRefund sampleAgent networkError
      sampleRefundTxn [] rfl (by decide) rfl rfl).2.2.1,
    (h3 (envWith (.ok rejectedResp)) sampleSettleBet sampleAgent rejectedResp
      { status := some "9999" } "9999" rfl (by decide) rfl rfl rfl (by decide)).2.2,
    h4 (envWith (.error networkError)) samplePlaceBet⟩

/-- C10: a `refundBet` with an empty `refundTransactions` list still resolves
the agent and builds a `cancelBet` wire message with an empty `txns` array; it
never creates a retry job (retry creation is guarded on a first transaction
existing), and on failure the audit rows carry aggregated amounts `0` and no
`platformTxId` — one row for a transport failure, two for a rejection. -/
theorem refundBet_empty_batch (env : WalletEnv) (p : RefundBetParams) (ag : Agent)
    (hA : env.agents p.agentId = some ag) (hE : p.refundTransactions = []) :
    (WalletService.refundBet env p).request =
      some { action := "cancelBet", userId := none, txns := [] } ∧
    (WalletService.refundBet env p).retryJobs = [] ∧
    (∀ e : JsError, env.httpPost = .error e → env.auditLogOk = true →
      (WalletService.refundBet env p).audits.map
          (fun a => (a.status, a.platformTxId, a.betAmount, a.winAmount)) =
        [(.FAILURE, none, some 0, some 0)]) ∧
    (∀ (resp : HttpResp) (d : AgentData) (s : String),
      env.httpPost = .ok resp → resp.data = some d → d.status = some s →
      s ≠ "0000" → env.auditLogOk = true →
      (WalletService.refundBet env p).audits.map
          (fun a => (a.status, a.platformTxId, a.betAmount, a.winAmount)) =
        [(.FAILURE, none, some 0, some 0), (.FAILURE, none, some 0, some 0)]) := by
  unfold WalletService.refundBet
  rw [hA]
  dsimp only
  rw [hE]
  refine ⟨?_, ?_, ?_, ?_⟩
  · cases hH : env.httpPost with
    | error e => rfl
    | ok resp =>
      dsimp only
      cases hm : WalletService.mapAgentResponse resp.data with
      | error e => rfl
      | ok mapped =>
        dsimp only
        by_cases hne : mapped.status ≠ "0000"
        · rw [if_pos hne]; rfl
        · rw [if_neg hne]; rfl
  · cases hH : env.httpPost with
    | error e => rfl
    | ok resp =>
      dsimp only
      cases hm : WalletService.mapAgentResponse resp.data with
      | error e => rfl
      | ok mapped =>
        dsimp only
        by_cases hne : mapped.status ≠ "0000"
        · rw [if_pos hne]; rfl
        · rw [if_neg hne]
  · intro e hH hok
    rw [hH]
    dsimp only
    simp [WalletService.auditIf, hok]
  · intro resp d s hH hd hs hne hok
    have hm := mapAgentResponse_wellFormed d s hs
    rw [hH]
    dsimp only
    rw [hd, hm]
    dsimp only
    rw [if_pos hne]
    simp [WalletService.auditIf, hok]

/-- Witness for C10: an empty refund batch against a concrete agent with a
connection-refused POST. -/
theorem refundBet_empty_batch_witness :
    ((WalletService.refundBet (envWith (.error networkError)) sampleRefundEmpty).request =
      some { action := "cancelBet", userId := none, txns := [] }) ∧
    ((WalletService.refundBet (envWith (.error networkError))
        sampleRefundEmpty).retryJobs = []) ∧
    ((WalletService.refundBet (envWith (.error networkError)) sampleRefundEmpty).audits.map
        (fun a => (a.status, a.platformTxId, a.betAmount, a.winAmount)) =
      [(.FAILURE, none, some 0, some 0)]) := by
  obtain ⟨h1, h2, h3, -⟩ :=
    refundBet_empty_batch (envWith (.error networkError)) sampleRefundEmpty sampleAgent
      (by decide) rfl
  exact ⟨h1, h2, h3 networkError rfl rfl⟩
